/-
Verification of the SMART-on-FHIR authorization flow implemented in
jupyter_smart_on_fhir/server_extension.py.

The Python handlers are shallowly embedded as pure Lean functions:
HTTP query parameters, signed cookies and the process-wide `settings`
dict become explicit arguments and results; the two outbound network
calls (discovery fetch, token exchange) are modelled by passing the
network's answer as an argument and recording the request the handler
would send, so that "makes no network call" is the statement that the
recorded request list is empty.  Machine integers are `Nat` with
explicit `% 2^32`.
-/
import Mathlib

namespace SmartFhir

/-! ## Bit-level helpers (32-bit words as `Nat` mod 2^32) -/

def wordMod : Nat := 4294967296

def add32 (a b : Nat) : Nat := (a + b) % wordMod

def rotr32 (n x : Nat) : Nat := ((x >>> n) ||| (x <<< (32 - n))) % wordMod

def not32 (x : Nat) : Nat := x ^^^ 4294967295

/-! ## SHA-256 (FIPS 180-4), over lists of bytes (`Nat` < 256) -/

def sha256K : List Nat :=
  [1116352408, 1899447441, 3049323471, 3921009573, 961987163,
   1508970993, 2453635748, 2870763221, 3624381080, 310598401,
   607225278, 1426881987, 1925078388, 2162078206, 2614888103,
   3248222580, 3835390401, 4022224774, 264347078, 604807628,
   770255983, 1249150122, 1555081692, 1996064986, 2554220882,
   2821834349, 2952996808, 3210313671, 3336571891, 3584528711,
   113926993, 338241895, 666307205, 773529912, 1294757372,
   1396182291, 1695183700, 1986661051, 2177026350, 2456956037,
   2730485921, 2820302411, 3259730800, 3345764771, 3516065817,
   3600352804, 4094571909, 275423344, 430227734, 506948616,
   659060556, 883997877, 958139571, 1322822218, 1537002063,
   1747873779, 1955562222, 2024104815, 2227730452, 2361852424,
   2428436474, 2756734187, 3204031479, 3329325298]

def sha256H0 : List Nat :=
  [1779033703, 3144134277, 1013904242, 2773480762,
   1359893119, 2600822924, 528734635, 1541459225]

def bigSigma0 (x : Nat) : Nat := (rotr32 2 x) ^^^ (rotr32 13 x) ^^^ (rotr32 22 x)

def bigSigma1 (x : Nat) : Nat := (rotr32 6 x) ^^^ (rotr32 11 x) ^^^ (rotr32 25 x)

def smallSigma0 (x : Nat) : Nat := (rotr32 7 x) ^^^ (rotr32 18 x) ^^^ (x >>> 3)

def smallSigma1 (x : Nat) : Nat := (rotr32 17 x) ^^^ (rotr32 19 x) ^^^ (x >>> 10)

def chF (x y z : Nat) : Nat := (x &&& y) ^^^ (not32 x &&& z)

def majF (x y z : Nat) : Nat := (x &&& y) ^^^ (x &&& z) ^^^ (y &&& z)

/-- Big-endian 8-byte encoding of a natural number (the 64-bit length field). -/
def be64 (n : Nat) : List Nat :=
  [(n >>> 56) % 256, (n >>> 48) % 256, (n >>> 40) % 256, (n >>> 32) % 256,
   (n >>> 24) % 256, (n >>> 16) % 256, (n >>> 8) % 256, n % 256]

/-- SHA-256 message padding: append 0x80, zeros, and the 64-bit bit length. -/
def sha256pad (msg : List Nat) : List Nat :=
  msg ++ [0x80] ++ List.replicate ((64 - ((msg.length + 9) % 64)) % 64) 0
      ++ be64 (msg.length * 8)

/-- Group a byte list into big-endian 32-bit words (4 bytes per word). -/
def bytesToWords : List Nat → List Nat
  | a :: b :: c :: d :: rest =>
      ((a <<< 24) ||| (b <<< 16) ||| (c <<< 8) ||| d) :: bytesToWords rest
  | _ => []

/-- Split a list into 64-byte blocks (structural recursion on a fuel bound
so the kernel can evaluate it). -/
def toBlocksAux : Nat → List Nat → List (List Nat)
  | 0, _ => []
  | _, [] => []
  | fuel + 1, a :: rest => (a :: rest).take 64 :: toBlocksAux fuel ((a :: rest).drop 64)

/-- Split a list into 64-byte blocks. -/
def toBlocks (l : List Nat) : List (List Nat) := toBlocksAux l.length l

/-- Extend the 16-word message block to the 64-word schedule, one word per step. -/
def extendSchedule (w : List Nat) : Nat → List Nat
  | 0 => w
  | t + 1 =>
      let w2 := extendSchedule w t
      let n := w2.length
      w2 ++ [add32 (add32 (smallSigma1 (w2.getD (n - 2) 0)) (w2.getD (n - 7) 0))
                   (add32 (smallSigma0 (w2.getD (n - 15) 0)) (w2.getD (n - 16) 0))]

/-- One round of the SHA-256 compression function on state [a,b,c,d,e,f,g,h]. -/
def sha256Round (st : List Nat) (kw : Nat × Nat) : List Nat :=
  match st with
  | [a, b, c, d, e, f, g, h] =>
      let t1 := add32 (add32 (add32 h (bigSigma1 e)) (add32 (chF e f g) kw.1)) kw.2
      let t2 := add32 (bigSigma0 a) (majF a b c)
      [add32 t1 t2, a, b, c, add32 d t1, e, f, g]
  | other => other

/-- Process one 64-byte block, updating the 8-word hash state. -/
def sha256Block (hs : List Nat) (block : List Nat) : List Nat :=
  let w := extendSchedule (bytesToWords block) 48
  let st := (sha256K.zip w).foldl sha256Round hs
  (hs.zip st).map fun p => add32 p.1 p.2

/-- Big-endian 4-byte decomposition of a 32-bit word. -/
def wordToBytes (n : Nat) : List Nat :=
  [(n >>> 24) % 256, (n >>> 16) % 256, (n >>> 8) % 256, n % 256]

/-- SHA-256 digest of a byte list, as the list of 32 digest bytes. -/
def sha256 (msg : List Nat) : List Nat :=
  (((toBlocks (sha256pad msg)).foldl sha256Block sha256H0).map wordToBytes).flatten

/-! ## UTF-8 encoding of strings to byte lists -/

def charUtf8 (c : Char) : List Nat :=
  let n := c.toNat
  if n < 0x80 then [n]
  else if n < 0x800 then [0xc0 ||| (n >>> 6), 0x80 ||| (n &&& 0x3f)]
  else if n < 0x10000 then
    [0xe0 ||| (n >>> 12), 0x80 ||| ((n >>> 6) &&& 0x3f), 0x80 ||| (n &&& 0x3f)]
  else
    [0xf0 ||| (n >>> 18), 0x80 ||| ((n >>> 12) &&& 0x3f),
     0x80 ||| ((n >>> 6) &&& 0x3f), 0x80 ||| (n &&& 0x3f)]

def utf8Bytes (s : String) : List Nat := (s.toList.map charUtf8).flatten

/-! ## base64url (Python `base64.urlsafe_b64encode`), over byte lists -/

def b64urlAlphabet : List Char :=
  "ABCDEFGHIJKLMNOPQRSTUVWXYZabcdefghijklmnopqrstuvwxyz0123456789-_".toList

/-- Character of the urlsafe base64 alphabet for a 6-bit index. -/
def b64chr (n : Nat) : Char := b64urlAlphabet.getD (n % 64) 'A'

/-- Encode 3-byte groups into 4 characters, '='-padding a final partial group
(bytes are < 256 as produced by `sha256`). -/
def b64chunks : List Nat → List Char
  | [] => []
  | [a] => [b64chr (a >>> 2), b64chr ((a % 4) * 16), '=', '=']
  | [a, b] =>
      [b64chr (a >>> 2), b64chr ((a % 4) * 16 + (b >>> 4)), b64chr ((b % 16) * 4), '=']
  | a :: b :: c :: rest =>
      b64chr (a >>> 2) :: b64chr ((a % 4) * 16 + (b >>> 4)) ::
      b64chr ((b % 16) * 4 + (c >>> 6)) :: b64chr (c % 64) :: b64chunks rest

/-- Python `base64.urlsafe_b64encode`, as a list of characters (bytes of the
result are all ASCII). -/
def urlsafe_b64encode (bs : List Nat) : List Char := b64chunks bs

/-- Python `bytes.rstrip(b"=")`: drop trailing '=' characters. -/
def rstripEq (l : List Char) : List Char :=
  (l.reverse.dropWhile (fun c => c = '=')).reverse

/-- Spec-side definition ("base64url_no_pad"): base64url encoding that emits
no padding characters at all. -/
def base64urlNoPad : List Nat → List Char
  | [] => []
  | [a] => [b64chr (a >>> 2), b64chr ((a % 4) * 16)]
  | [a, b] =>
      [b64chr (a >>> 2), b64chr ((a % 4) * 16 + (b >>> 4)), b64chr ((b % 16) * 4)]
  | a :: b :: c :: rest =>
      b64chr (a >>> 2) :: b64chr ((a % 4) * 16 + (b >>> 4)) ::
      b64chr ((b % 16) * 4 + (c >>> 6)) :: b64chr (c % 64) :: base64urlNoPad rest

/-! ## Percent-encoding (Python `urllib.parse.quote_plus` with safe='') -/

def hexDigit (n : Nat) : Char := "0123456789ABCDEF".toList.getD (n % 16) '0'

/-- Bytes Python's `quote` never encodes: ASCII letters, digits, `_.-~`. -/
def safeByte (b : Nat) : Bool :=
  (48 ≤ b && b ≤ 57) || (65 ≤ b && b ≤ 90) || (97 ≤ b && b ≤ 122) ||
  b == 95 || b == 46 || b == 45 || b == 126

/-- Percent-escape one byte as %XX. -/
def pctByte (b : Nat) : List Char := ['%', hexDigit (b >>> 4), hexDigit b]

/-- Python `quote_plus` applied to raw bytes (safe=''): safe bytes pass
through, space becomes '+', everything else is %XX-escaped. -/
def quoteBytes (bs : List Nat) : String :=
  String.mk ((bs.map fun b =>
    if safeByte b then [Char.ofNat b]
    else if b == 32 then ['+']
    else pctByte b)).flatten

/-- Python `quote_plus` on a string: encode its UTF-8 bytes. -/
def quotePlus (s : String) : String := quoteBytes (utf8Bytes s)

/-! ## Python `urllib.parse.urlencode` over the value types the source puts
in its dicts: `str`, `bytes` and `None`. -/

inductive PyVal
  | str (s : String)
  | bytes (b : List Nat)
  | pyNone
deriving DecidableEq

/-- How `urlencode` renders one value: bytes are quoted directly, any other
value is passed through `str()` first (so Python `None` becomes "None"). -/
def quoteVal : PyVal → String
  | .str s => quotePlus s
  | .bytes b => quoteBytes b
  | .pyNone => quotePlus "None"

/-- Python `urllib.parse.urlencode` on an insertion-ordered dict. -/
def urlencodePairs (ps : List (String × PyVal)) : String :=
  String.intercalate "&" (ps.map fun p => quotePlus p.1 ++ "=" ++ quoteVal p.2)

/-! ## URL joining helpers used by the source -/

/-- Strip leading and trailing '/' characters. -/
def stripSlashes (s : String) : String :=
  String.mk (((s.toList.dropWhile (fun c => c = '/')).reverse.dropWhile
    (fun c => c = '/')).reverse)

/-- Models `jupyter_server.utils.url_path_join` for two pieces: strip interior
slashes, join non-empty pieces with '/', keep a leading slash of the first
piece and a trailing slash of the last. -/
def urlPathJoin (a b : String) : String :=
  let body := String.intercalate "/" (([stripSlashes a, stripSlashes b]).filter
    (fun s => s ≠ ""))
  let withLead := if a.toList.head? = some '/' then "/" ++ body else body
  let withTrail := if b.toList.getLast? = some '/' then withLead ++ "/" else withLead
  if withTrail = "//" then "/" else withTrail

/-- Models `urllib.parse.urljoin` for the only case the source exercises: the
second argument is an absolute path, so the result keeps the base URL's
scheme and authority (its `origin`) and replaces the path. -/
def urljoinAbsPath (origin : String) (p : String) : String := origin ++ p

/-! ## Data model (module constants, settings, requests, cookies) -/

def smart_path : String := "/smart"

def login_path : String := "/smart/login"

def callback_path : String := "/smart/oauth_callback"

/-- The discovered issuer configuration (`SMARTConfig` from
jupyter_smart_on_fhir.auth); the server extension reads its `fhir_url`,
`auth_url` and `token_url` fields. -/
structure SMARTConfig where
  fhir_url : String
  auth_url : String
  token_url : String
deriving DecidableEq

/-- The slice of the Tornado/Jupyter `settings` dict the three handlers read
and write.  `smart_redirect_uri` is "" when unconfigured (Python falsy);
`launch`, `smart_token` are `Option` because the dict may hold `None` /
no entry.  `base_url` is server configuration shared by all handlers. -/
structure Settings where
  scopes : List String
  client_id : String
  smart_redirect_uri : String
  base_url : String
  smart_default_issuer : String
  smart_config : SMARTConfig
  launch : Option String
  next_url : String
  smart_token : Option String
deriving DecidableEq

/-- The part of an incoming HTTP request the handlers use: `origin` is
scheme://host of `full_url`, `uri` the path+query, so `full_url` is
`origin ++ uri`. -/
structure Request where
  origin : String
  uri : String
deriving DecidableEq

/-- Query parameters of a callback request; `none` means absent. -/
structure Query where
  error : Option String
  code : Option String
  state : Option String
deriving DecidableEq

/-- Signed cookies visible to the handlers (`get_signed_cookie` returns
`None` for a missing or tampered cookie). -/
structure Cookies where
  state_id : Option String
  code_verifier : Option String
  next_url : Option String
deriving DecidableEq

/-- An HTTP response produced by a handler (`redirect` carries Tornado's
status, 302 for non-permanent). -/
inductive Response
  | redirect (status : Nat) (url : String)
  | page (status : Nat) (contentType : String) (body : String)
deriving DecidableEq

/-- An outbound HTTP request recorded instead of performed. -/
structure TokenRequest where
  url : String
  method : String
  headers : List (String × String)
  body : String
deriving DecidableEq

/-! ## SMARTCallbackHandler (validation and token exchange) -/

/-- One constructor per distinct raise site in `SMARTCallbackHandler.get`
(lines 167-184): `errorParam` is `HTTPError(400, error)`; `missingCodeArg`
and `missingStateArg` are Tornado's `MissingArgumentError` (status 400)
raised by `get_argument` without a default; the rest are the explicit
`HTTPError(400, ...)` raises. -/
inductive ValidationError
  | errorParam (msg : String)
  | missingCodeArg
  | emptyCode
  | missingStateCookie
  | missingStateArg
  | emptyStateArg
  | stateMismatch
deriving DecidableEq

/-- Everything `SMARTCallbackHandler.get` can fail with: a validation
error, the `AttributeError` from `.decode` on a missing `code_verifier`
cookie (line 144), or the `HTTPClientError` re-raised after a failed
token fetch (lines 158-162). -/
inductive CallbackError
  | validation (e : ValidationError)
  | noneVerifierCookie
  | exchangeFailed
deriving DecidableEq

/-- HTTP status of each failure: every validation raise site passes 400;
the other two are exceptions Tornado does not treat as `HTTPError`, so the
framework reports status 500. -/
def statusOf : CallbackError → Nat
  | .validation _ => 400
  | .noneVerifierCookie => 500
  | .exchangeFailed => 500

/-- The validation sequence of `SMARTCallbackHandler.get` (lines 167-184),
in source order: `error` param, `code` argument (missing, then Python-falsy
empty), stored `state_id` cookie, `state` argument (missing, then empty),
state comparison.  Returns the accepted `code`. -/
def callbackValidate (q : Query) (c : Cookies) : Except ValidationError String :=
  if q.error.isSome then .error (.errorParam (q.error.getD ""))
  else match q.code with
  | none => .error .missingCodeArg
  | some code =>
    if code = "" then .error .emptyCode
    else match c.state_id with
    | none => .error .missingStateCookie
    | some sid =>
      match q.state with
      | none => .error .missingStateArg
      | some st =>
        if st = "" then .error .emptyStateArg
        else if st ≠ sid then .error .stateMismatch
        else .ok code

/-- The redirect_uri expression written identically in
`SMARTLoginHandler.get` (lines 123-126) and
`SMARTCallbackHandler.token_for_code` (lines 145-148): the configured
`smart_redirect_uri` if truthy, else the current request's origin joined
with `base_url` and the fixed callback path. -/
def redirectUri (s : Settings) (req : Request) : String :=
  if s.smart_redirect_uri ≠ "" then s.smart_redirect_uri
  else urljoinAbsPath req.origin (urlPathJoin s.base_url callback_path)

/-- The POST request `SMARTCallbackHandler.token_for_code` (lines 139-157)
builds: form-encoded body with the dict's insertion order `client_id`,
`grant_type`, `code`, `code_verifier`, `redirect_uri`. -/
def token_for_code_request (s : Settings) (req : Request)
    (code verifier : String) : TokenRequest :=
  { url := s.smart_config.token_url
    method := "POST"
    headers := [("Content-Type", "application/x-www-form-urlencoded")]
    body := urlencodePairs
      [("client_id", .str s.client_id),
       ("grant_type", .str "authorization_code"),
       ("code", .str code),
       ("code_verifier", .str verifier),
       ("redirect_uri", .str (redirectUri s req))] }

deriving instance DecidableEq for Except

/-- Full effect of one callback request: the handler's result, the settings
and cookies afterwards (the handler never sets or clears a cookie), and the
outbound requests it made. -/
structure CallbackOutcome where
  result : Except CallbackError Response
  settings : Settings
  cookies : Cookies
  requests : List TokenRequest
deriving DecidableEq

/-- Embedding of `SMARTCallbackHandler.get` (lines 165-187) together with
`token_for_code`: validate, then build and send the token POST
(`fetchResult` stands for the network's answer: the `access_token` field
of the JSON reply, or a client error), store the token in settings and
redirect to `settings["next_url"]`. -/
def SMARTCallbackHandler.get (q : Query) (c : Cookies) (s : Settings)
    (req : Request) (fetchResult : Except Unit String) : CallbackOutcome :=
  match callbackValidate q c with
  | .error e => ⟨.error (.validation e), s, c, []⟩
  | .ok code =>
    match c.code_verifier with
    | none => ⟨.error .noneVerifierCookie, s, c, []⟩
    | some verifier =>
      let tr := token_for_code_request s req code verifier
      match fetchResult with
      | .error _ => ⟨.error .exchangeFailed, s, c, [tr]⟩
      | .ok token =>
          ⟨.ok (.redirect 302 s.next_url), { s with smart_token := some token }, c, [tr]⟩

/-! ## SMARTLoginHandler -/

/-- Effect of one login request: cookies set, the `headers` dict passed to
`urlencode` (in insertion order), the encoded query string, and the full
redirect URL. -/
structure LoginOutcome where
  cookies : Cookies
  params : List (String × PyVal)
  query : String
  redirectUrl : String
deriving DecidableEq

/-- Embedding of `SMARTLoginHandler.get` (lines 105-133).  The values of
`generate_state()` (from the absent auth.py) enter as the `state_id` and
`state_next_url` arguments, and the fresh `secrets.token_urlsafe(53)`
verifier as `code_verifier`.  The `next_url` cookie is set only when
`state["next_url"]` is truthy. -/
def SMARTLoginHandler.get (s : Settings) (req : Request) (state_id : String)
    (state_next_url : Option String) (code_verifier : String) : LoginOutcome :=
  let cookies : Cookies :=
    { state_id := some state_id
      next_url := match state_next_url with
        | some u => if u = "" then none else some u
        | none => none
      code_verifier := some code_verifier }
  let challenge := rstripEq (urlsafe_b64encode (sha256 (utf8Bytes code_verifier)))
  let headers : List (String × PyVal) :=
    [("aud", .str s.smart_config.fhir_url),
     ("state", .str state_id),
     ("launch", match s.launch with | some l => .str l | none => .pyNone),
     ("redirect_uri", .str (redirectUri s req)),
     ("client_id", .str s.client_id),
     ("code_challenge", .bytes (challenge.map Char.toNat)),
     ("code_challenge_method", .str "S256"),
     ("response_type", .str "code"),
     ("scope", .str (String.intercalate " " s.scopes))]
  { cookies := cookies
    params := headers
    query := urlencodePairs headers
    redirectUrl := s.smart_config.auth_url ++ "?" ++ urlencodePairs headers }

/-! ## SMARTAuthHandler and issuer discovery -/

/-- Query parameters of a launch request. -/
structure AuthQuery where
  iss : Option String
  launch : Option String
deriving DecidableEq

/-- Split a character list at the first occurrence of "://", if any. -/
def splitScheme : List Char → Option (List Char × List Char)
  | ':' :: '/' :: '/' :: rest => some ([], rest)
  | c :: rest =>
      match splitScheme rest with
      | some p => some (c :: p.1, p.2)
      | none => none
  | [] => none

/-- Well-formedness of an absolute URL: a nonempty alphabetic scheme before
the first "://", a nonempty remainder, and no space anywhere. -/
def isAbsoluteUrl (u : String) : Bool :=
  match splitScheme u.toList with
  | some (scheme, rest) =>
      !scheme.isEmpty && scheme.all (fun c => c.isAlpha) && !rest.isEmpty &&
      !(u.toList.contains ' ')
  | none => false

/-- Result of issuer discovery: the configuration or an HTTP error status,
plus the URLs fetched. -/
structure DiscoveryOutcome where
  result : Except Nat SMARTConfig
  requests : List String
deriving DecidableEq

/-- Modelled from the spec: `SMARTConfig.from_url` is defined in
jupyter_smart_on_fhir/auth.py, which is not part of the sources here.
Per the spec's Issuer Discoverer contract the FHIR base URL "must be
validated as a well-formed absolute URL before any network call"; a
malformed `iss` "yields ConfigurationError/400 without any outbound
network call"; otherwise the well-known SMART configuration resource is
resolved relative to the base URL and fetched (one outbound GET), and a
fetch failure aborts the flow as an upstream discovery error. -/
def SMARTConfig.from_url (fhir_url : String)
    (fetched : Except Unit SMARTConfig) : DiscoveryOutcome :=
  if !(isAbsoluteUrl fhir_url) then ⟨.error 400, []⟩
  else
    let wellKnown := fhir_url ++ "/.well-known/smart-configuration"
    match fetched with
    | .error _ => ⟨.error 502, [wellKnown]⟩
    | .ok cfg => ⟨.ok cfg, [wellKnown]⟩

/-- Effect of one launch request: response or error status, settings
afterwards, and the discovery URLs fetched. -/
structure AuthOutcome where
  result : Except Nat Response
  settings : Settings
  requests : List String
deriving DecidableEq

/-- Embedding of `SMARTAuthHandler.get` (lines 81-99): resolve `iss` (400
if empty), discover the issuer configuration, store `launch` and
`smart_config` in settings; without a held token, remember `next_url` and
redirect to the login path, else serve the success page. -/
def SMARTAuthHandler.get (q : AuthQuery) (s : Settings) (req : Request)
    (fetched : Except Unit SMARTConfig) : AuthOutcome :=
  let fhir_url := match q.iss with | some v => v | none => s.smart_default_issuer
  if fhir_url = "" then ⟨.error 400, s, []⟩
  else
    let d := SMARTConfig.from_url fhir_url fetched
    match d.result with
    | .error st => ⟨.error st, s, d.requests⟩
    | .ok cfg =>
      let s1 := { s with launch := q.launch, smart_config := cfg }
      match s1.smart_token with
      | none =>
          ⟨.ok (.redirect 302 (urlPathJoin s.base_url login_path)),
           { s1 with next_url := req.uri }, d.requests⟩
      | some _ =>
          ⟨.ok (.page 200 "text/plain"
              "Authorization success: Token persisted in $SMART_TOKEN"),
           s1, d.requests⟩

/-! ## Spec-side state machine (for the refinement claims) -/

/-- The FAILED variants of the spec's callback state machine. -/
inductive SpecFailure
  | IssuerError
  | ProtocolError
  | SessionExpired
  | StateMismatch
deriving DecidableEq

/-- Outcome of the VALIDATING phase of the spec's state machine. -/
inductive SpecOutcome
  | failed (f : SpecFailure)
  | exchanging
deriving DecidableEq

/-- Transcription of the spec's VALIDATING transitions, in the spec's
order: error param, code missing, stored state missing, state param
missing, state mismatch, else EXCHANGING.  A parameter supplied as the
empty string is Python-falsy, i.e. "missing". -/
def specValidate (q : Query) (c : Cookies) : SpecOutcome :=
  if q.error.isSome then .failed .IssuerError
  else if q.code = none ∨ q.code = some "" then .failed .ProtocolError
  else if c.state_id = none then .failed .SessionExpired
  else if q.state = none ∨ q.state = some "" then .failed .ProtocolError
  else if q.state ≠ c.state_id then .failed .StateMismatch
  else .exchanging

/-- The spec failure each source raise site realises. -/
def classifyValidation : ValidationError → SpecFailure
  | .errorParam _ => .IssuerError
  | .missingCodeArg => .ProtocolError
  | .emptyCode => .ProtocolError
  | .missingStateCookie => .SessionExpired
  | .missingStateArg => .ProtocolError
  | .emptyStateArg => .ProtocolError
  | .stateMismatch => .StateMismatch

/-- Where the source's validation lands in the spec's state machine. -/
def sourceValidateOutcome (q : Query) (c : Cookies) : SpecOutcome :=
  match callbackValidate q c with
  | .error e => .failed (classifyValidation e)
  | .ok _ => .exchanging

/-- HTTP status the framework reports for a callback outcome (`none` when
the handler succeeded). -/
def outcomeStatus (o : CallbackOutcome) : Option Nat :=
  match o.result with
  | .error e => some (statusOf e)
  | .ok _ => none

/-! ## Helper lemmas about base64url padding -/

theorem b64chr_ne_pad (n : Nat) : b64chr n ≠ '=' := by
  have h : n % 64 < 64 := Nat.mod_lt _ (by norm_num)
  have hall : ∀ m, m < 64 → b64urlAlphabet.getD m 'A' ≠ '=' := by decide
  exact hall _ h

theorem rstripEq_append (xs ys : List Char) (h : ∀ c ∈ xs, c ≠ '=') :
    rstripEq (xs ++ ys) = xs ++ rstripEq ys := by
  unfold rstripEq
  rw [List.reverse_append, List.dropWhile_append]
  rcases hd : ys.reverse.dropWhile (fun c => decide (c = '=')) with _ | ⟨a, t⟩
  · simp only [List.isEmpty_nil, if_true]
    have hx : xs.reverse.dropWhile (fun c => decide (c = '=')) = xs.reverse := by
      rcases hx : xs.reverse with _ | ⟨b, u⟩
      · rfl
      · have hb : b ∈ xs := by
          have : b ∈ xs.reverse := by rw [hx]; exact List.mem_cons_self b u
          exact List.mem_reverse.mp this
        simp [List.dropWhile_cons, h b hb]
    rw [hx]
    simp
  · simp

theorem rstrip_b64encode (bs : List Nat) :
    rstripEq (urlsafe_b64encode bs) = base64urlNoPad bs := by
  unfold urlsafe_b64encode
  induction bs using b64chunks.induct with
  | case1 => rfl
  | case2 a =>
      show rstripEq ([b64chr (a >>> 2), b64chr ((a % 4) * 16)] ++ ['=', '=']) = _
      rw [rstripEq_append]
      · rfl
      · intro c hc
        simp only [List.mem_cons, List.not_mem_nil, or_false] at hc
        rcases hc with rfl | rfl <;> exact b64chr_ne_pad _
  | case3 a b =>
      show rstripEq ([b64chr (a >>> 2), b64chr ((a % 4) * 16 + (b >>> 4)),
          b64chr ((b % 16) * 4)] ++ ['=']) = _
      rw [rstripEq_append]
      · rfl
      · intro c hc
        simp only [List.mem_cons, List.not_mem_nil, or_false] at hc
        rcases hc with rfl | rfl | rfl <;> exact b64chr_ne_pad _
  | case4 a b c rest ih =>
      show rstripEq ([b64chr (a >>> 2), b64chr ((a % 4) * 16 + (b >>> 4)),
          b64chr ((b % 16) * 4 + (c >>> 6)), b64chr (c % 64)] ++ b64chunks rest) = _
      rw [rstripEq_append]
      · show _ = ([b64chr (a >>> 2), b64chr ((a % 4) * 16 + (b >>> 4)),
          b64chr ((b % 16) * 4 + (c >>> 6)), b64chr (c % 64)] ++ base64urlNoPad rest)
        rw [ih]
      · intro d hd
        simp only [List.mem_cons, List.not_mem_nil, or_false] at hd
        rcases hd with rfl | rfl | rfl | rfl <;> exact b64chr_ne_pad _

/-! ## Concrete fixtures for witnesses and counterexamples -/

def sampleConfig : SMARTConfig :=
  ⟨"https://ehr.example.org/fhir", "https://ehr.example.org/auth/authorize",
   "https://ehr.example.org/auth/token"⟩

def sampleSettings : Settings :=
  { scopes := ["openid", "profile", "fhirUser", "launch", "patient/*.*"]
    client_id := "client123"
    smart_redirect_uri := ""
    base_url := "/"
    smart_default_issuer := ""
    smart_config := sampleConfig
    launch := none
    next_url := "/smart?iss=x"
    smart_token := none }

def sampleRequest : Request :=
  ⟨"https://nb.example.net", "/smart/oauth_callback?code=authcode&state=abc123"⟩

def sampleLoginRequest : Request := ⟨"https://nb.example.net", "/smart/login"⟩

def sampleCookies : Cookies := ⟨some "abc123", some "verifier1", some "/next"⟩

def okQuery : Query := ⟨none, some "authcode", some "abc123"⟩

def mismatchQuery : Query := ⟨none, some "authcode", some "xyz987"⟩

def missingCodeQuery : Query := ⟨none, none, some "abc123"⟩

/-! ## Claims -/

theorem validate_refines_spec (q : Query) (c : Cookies) :
    sourceValidateOutcome q c = specValidate q c := by
  rcases q with ⟨qe, qc, qs⟩
  rcases c with ⟨cs, cv, cn⟩
  unfold sourceValidateOutcome callbackValidate specValidate
  cases qe with
  | some e => simp [classifyValidation]
  | none =>
    cases qc with
    | none => simp [classifyValidation]
    | some code =>
      by_cases hcode : code = ""
      · subst hcode; simp [classifyValidation]
      · cases cs with
        | none => simp [hcode, classifyValidation]
        | some sid =>
          cases qs with
          | none => simp [hcode, classifyValidation]
          | some st =>
            by_cases hst : st = ""
            · subst hst; simp [hcode, classifyValidation]
            · by_cases hm : st = sid
              · subst hm; simp [hcode, hst]
              · simp [hcode, hst, hm, classifyValidation]

/-- C1: for every callback request, the handler performs the validation
checks in exactly the spec's state-machine order — error param
(IssuerError), missing code (ProtocolError), missing stored state cookie
(SessionExpired), missing state param (ProtocolError), state differing
from the stored stateId (StateMismatch) — and proceeds to the token
exchange only if all five checks pass. -/
theorem C1_callback_validation_order (q : Query) (c : Cookies) (s : Settings)
    (req : Request) (fr : Except Unit String) :
    sourceValidateOutcome q c = specValidate q c ∧
    ((SMARTCallbackHandler.get q c s req fr).requests ≠ [] →
      specValidate q c = SpecOutcome.exchanging) := by
  refine ⟨validate_refines_spec q c, fun hreq => ?_⟩
  rw [← validate_refines_spec q c]
  unfold SMARTCallbackHandler.get at hreq
  unfold sourceValidateOutcome
  cases hv : callbackValidate q c with
  | error e => rw [hv] at hreq; simp at hreq
  | ok code => rfl

/-- Witness for C1 at a concrete passing callback: the token request list is
nonempty and the spec machine is in EXCHANGING. -/
theorem C1_witness :
    (SMARTCallbackHandler.get okQuery sampleCookies sampleSettings
      sampleRequest (Except.ok "tok")).requests ≠ [] ∧
    specValidate okQuery sampleCookies = SpecOutcome.exchanging :=
  ⟨by decide,
   (C1_callback_validation_order okQuery sampleCookies sampleSettings
      sampleRequest (Except.ok "tok")).2 (by decide)⟩

/-- C2: for every callback request whose validation fails — in particular a
missing code or a state differing from the stored stateId — the handler
fails with that validation error and records no request to the token
endpoint. -/
theorem C2_no_network_on_validation_failure (q : Query) (c : Cookies)
    (s : Settings) (req : Request) (fr : Except Unit String)
    (e : ValidationError) (h : callbackValidate q c = Except.error e) :
    (SMARTCallbackHandler.get q c s req fr).result
        = Except.error (CallbackError.validation e) ∧
    (SMARTCallbackHandler.get q c s req fr).requests = [] := by
  unfold SMARTCallbackHandler.get
  rw [h]
  exact ⟨rfl, rfl⟩

/-- Witness for C2 at the spec's own example (stored "abc123", callback
state "xyz987"): validation fails with the state-mismatch error and no
token request is made. -/
theorem C2_witness :
    callbackValidate mismatchQuery sampleCookies
        = Except.error ValidationError.stateMismatch ∧
    (SMARTCallbackHandler.get mismatchQuery sampleCookies sampleSettings
        sampleRequest (Except.ok "tok")).result
        = Except.error (CallbackError.validation ValidationError.stateMismatch) ∧
    (SMARTCallbackHandler.get mismatchQuery sampleCookies sampleSettings
        sampleRequest (Except.ok "tok")).requests = [] :=
  ⟨by decide,
   C2_no_network_on_validation_failure mismatchQuery sampleCookies
     sampleSettings sampleRequest (Except.ok "tok")
     ValidationError.stateMismatch (by decide)⟩

/-- C3: for every code verifier generated at login, the code_challenge
parameter equals base64url(SHA256(codeVerifier)) with the '=' padding
stripped, and code_challenge_method is the constant "S256". -/
theorem C3_pkce_challenge (s : Settings) (req : Request) (sid : String)
    (nu : Option String) (cv : String) :
    List.lookup "code_challenge" (SMARTLoginHandler.get s req sid nu cv).params
      = some (PyVal.bytes
          ((base64urlNoPad (sha256 (utf8Bytes cv))).map Char.toNat)) ∧
    List.lookup "code_challenge_method"
        (SMARTLoginHandler.get s req sid nu cv).params
      = some (PyVal.str "S256") := by
  have h1 : List.lookup "code_challenge"
      (SMARTLoginHandler.get s req sid nu cv).params
      = some (PyVal.bytes
          ((rstripEq (urlsafe_b64encode (sha256 (utf8Bytes cv)))).map Char.toNat)) :=
    rfl
  rw [rstrip_b64encode] at h1
  exact ⟨h1, rfl⟩

theorem get_success_characterization (q : Query) (c : Cookies) (s : Settings)
    (req : Request) (tok code v : String)
    (hval : callbackValidate q c = Except.ok code)
    (hcv : c.code_verifier = some v) :
    SMARTCallbackHandler.get q c s req (Except.ok tok) =
      ⟨Except.ok (Response.redirect 302 s.next_url),
       { s with smart_token := some tok }, c,
       [token_for_code_request s req code v]⟩ := by
  unfold SMARTCallbackHandler.get
  rw [hval, hcv]

theorem get_ok_inversion (q : Query) (c : Cookies) (s : Settings)
    (req : Request) (fr : Except Unit String) (r : Response)
    (h : (SMARTCallbackHandler.get q c s req fr).result = Except.ok r) :
    ∃ code v tok, callbackValidate q c = Except.ok code ∧
      c.code_verifier = some v ∧ fr = Except.ok tok ∧
      r = Response.redirect 302 s.next_url := by
  unfold SMARTCallbackHandler.get at h
  cases hv : callbackValidate q c with
  | error e => rw [hv] at h; simp at h
  | ok code =>
    rw [hv] at h
    cases hcv : c.code_verifier with
    | none => rw [hcv] at h; simp at h
    | some v =>
      rw [hcv] at h
      cases fr with
      | error u => simp at h
      | ok tok =>
        simp at h
        exact ⟨code, v, tok, rfl, rfl, rfl, h.symm⟩

/-- C4: for every authorization code accepted by validation, the token
exchange is a POST to the discovered token endpoint, Content-Type
application/x-www-form-urlencoded, whose form body holds exactly
client_id, grant_type=authorization_code, the received code, the
code_verifier stored at login (never regenerated), and a redirect_uri
byte-identical to the one in the authorization request (both requests
being served at the same origin). -/
theorem C4_token_exchange_request (q : Query) (c : Cookies) (s : Settings)
    (loginReq cbReq : Request) (fr : Except Unit String)
    (code sid verifier : String) (nu : Option String)
    (hval : callbackValidate q c = Except.ok code)
    (hcv : c.code_verifier
      = (SMARTLoginHandler.get s loginReq sid nu verifier).cookies.code_verifier)
    (horigin : cbReq.origin = loginReq.origin) :
    (SMARTCallbackHandler.get q c s cbReq fr).requests =
      [{ url := s.smart_config.token_url
         method := "POST"
         headers := [("Content-Type", "application/x-www-form-urlencoded")]
         body := urlencodePairs
           [("client_id", PyVal.str s.client_id),
            ("grant_type", PyVal.str "authorization_code"),
            ("code", PyVal.str code),
            ("code_verifier", PyVal.str verifier),
            ("redirect_uri", PyVal.str (redirectUri s loginReq))] }] ∧
    List.lookup "redirect_uri"
        (SMARTLoginHandler.get s loginReq sid nu verifier).params
      = some (PyVal.str (redirectUri s loginReq)) := by
  have hredir : redirectUri s cbReq = redirectUri s loginReq := by
    unfold redirectUri
    by_cases hconf : s.smart_redirect_uri = ""
    · simp [hconf, urljoinAbsPath, horigin]
    · simp [hconf]
  have hcv' : c.code_verifier = some verifier := hcv
  refine ⟨?_, rfl⟩
  unfold SMARTCallbackHandler.get
  rw [hval, hcv']
  cases fr <;> simp [token_for_code_request, hredir]

/-- Witness for C4 at a concrete accepted callback, with the verifier taken
from the login handler's cookie. -/
theorem C4_witness :
    callbackValidate okQuery sampleCookies = Except.ok "authcode" ∧
    sampleCookies.code_verifier
      = (SMARTLoginHandler.get sampleSettings sampleLoginRequest "abc123"
          (some "/next") "verifier1").cookies.code_verifier ∧
    sampleRequest.origin = sampleLoginRequest.origin ∧
    ((SMARTCallbackHandler.get okQuery sampleCookies sampleSettings
        sampleRequest (Except.ok "tok")).requests =
      [{ url := sampleSettings.smart_config.token_url
         method := "POST"
         headers := [("Content-Type", "application/x-www-form-urlencoded")]
         body := urlencodePairs
           [("client_id", PyVal.str sampleSettings.client_id),
            ("grant_type", PyVal.str "authorization_code"),
            ("code", PyVal.str "authcode"),
            ("code_verifier", PyVal.str "verifier1"),
            ("redirect_uri",
             PyVal.str (redirectUri sampleSettings sampleLoginRequest))] }] ∧
     List.lookup "redirect_uri"
        (SMARTLoginHandler.get sampleSettings sampleLoginRequest "abc123"
          (some "/next") "verifier1").params
      = some (PyVal.str (redirectUri sampleSettings sampleLoginRequest))) :=
  ⟨by decide, rfl, rfl,
   C4_token_exchange_request okQuery sampleCookies sampleSettings
     sampleLoginRequest sampleRequest (Except.ok "tok") "authcode" "abc123"
     "verifier1" (some "/next") (by decide) rfl rfl⟩

/-- Counterexample for C5: after a successful callback the handler leaves
the state cookie and stored FlowState untouched, so replaying the same
code/state pair succeeds a second time instead of failing with
SessionExpired. -/
theorem C5_counterexample :
    (SMARTCallbackHandler.get okQuery sampleCookies sampleSettings
        sampleRequest (Except.ok "tok")).result
      = Except.ok (Response.redirect 302 "/smart?iss=x") ∧
    (SMARTCallbackHandler.get okQuery sampleCookies sampleSettings
        sampleRequest (Except.ok "tok")).cookies = sampleCookies ∧
    (SMARTCallbackHandler.get okQuery
        (SMARTCallbackHandler.get okQuery sampleCookies sampleSettings
          sampleRequest (Except.ok "tok")).cookies
        (SMARTCallbackHandler.get okQuery sampleCookies sampleSettings
          sampleRequest (Except.ok "tok")).settings
        sampleRequest (Except.ok "tok2")).result
      = Except.ok (Response.redirect 302 "/smart?iss=x") := by decide

/-- C5 as amended: the handler never invalidates the stored state — a
callback leaves the cookies unchanged, so replaying the same code/state
pair after a successful callback is accepted again and triggers another
token-endpoint request; it does not fail with SessionExpired. -/
theorem C5_amended_replay_reaccepted (q : Query) (c : Cookies) (s : Settings)
    (req : Request) (fr : Except Unit String) (r : Response)
    (h : (SMARTCallbackHandler.get q c s req fr).result = Except.ok r) :
    (SMARTCallbackHandler.get q c s req fr).cookies = c ∧
    (SMARTCallbackHandler.get q
        (SMARTCallbackHandler.get q c s req fr).cookies
        (SMARTCallbackHandler.get q c s req fr).settings req fr).result
      = Except.ok r ∧
    (SMARTCallbackHandler.get q
        (SMARTCallbackHandler.get q c s req fr).cookies
        (SMARTCallbackHandler.get q c s req fr).settings req fr).requests
      ≠ [] := by
  obtain ⟨code, v, tok, hval, hcv, hfr, hr⟩ :=
    get_ok_inversion q c s req fr r h
  subst hfr
  subst hr
  rw [get_success_characterization q c s req tok code v hval hcv]
  refine ⟨rfl, ?_, ?_⟩
  · rw [get_success_characterization q c { s with smart_token := some tok }
      req tok code v hval hcv]
  · rw [get_success_characterization q c { s with smart_token := some tok }
      req tok code v hval hcv]
    simp

/-- Witness for the amended C5 at a concrete successful callback. -/
theorem C5_witness :
    (SMARTCallbackHandler.get okQuery sampleCookies sampleSettings
        sampleRequest (Except.ok "tok")).result
      = Except.ok (Response.redirect 302 "/smart?iss=x") ∧
    ((SMARTCallbackHandler.get okQuery sampleCookies sampleSettings
        sampleRequest (Except.ok "tok")).cookies = sampleCookies ∧
     (SMARTCallbackHandler.get okQuery
        (SMARTCallbackHandler.get okQuery sampleCookies sampleSettings
          sampleRequest (Except.ok "tok")).cookies
        (SMARTCallbackHandler.get okQuery sampleCookies sampleSettings
          sampleRequest (Except.ok "tok")).settings
        sampleRequest (Except.ok "tok")).result
      = Except.ok (Response.redirect 302 "/smart?iss=x") ∧
     (SMARTCallbackHandler.get okQuery
        (SMARTCallbackHandler.get okQuery sampleCookies sampleSettings
          sampleRequest (Except.ok "tok")).cookies
        (SMARTCallbackHandler.get okQuery sampleCookies sampleSettings
          sampleRequest (Except.ok "tok")).settings
        sampleRequest (Except.ok "tok")).requests ≠ []) :=
  ⟨by decide,
   C5_amended_replay_reaccepted okQuery sampleCookies sampleSettings
     sampleRequest (Except.ok "tok")
     (Response.redirect 302 "/smart?iss=x") (by decide)⟩

/-- Counterexample for C6: with no launch hint (settings launch is None),
the authorization URL still carries a launch parameter, with the literal
value "None" produced by Python's str() inside urlencode — neither omitted
nor empty. -/
theorem C6_counterexample :
    sampleSettings.launch = none ∧
    List.lookup "launch" (SMARTLoginHandler.get sampleSettings
        sampleLoginRequest "abc123" (some "/next") "verifier1").params
      = some PyVal.pyNone ∧
    (SMARTLoginHandler.get sampleSettings sampleLoginRequest "abc123"
        (some "/next") "verifier1").query
      = "aud=https%3A%2F%2Fehr.example.org%2Ffhir&state=abc123&"
        ++ "launch=None"
        ++ "&redirect_uri=https%3A%2F%2Fnb.example.net%2Fsmart%2Foauth_callback&client_id=client123&code_challenge=UNRBI5WaniJnNgaplgaghteBI6YWdT5f_cIYujgSYV4&code_challenge_method=S256&response_type=code&scope=openid+profile+fhirUser+launch+patient%2F%2A.%2A" := by
  refine ⟨rfl, rfl, by set_option maxRecDepth 40000 in decide⟩

/-- C6 as amended: the redirect URL carries exactly the nine parameters
aud, state, launch, redirect_uri, client_id, code_challenge,
code_challenge_method, response_type, scope, with response_type=code,
method S256, space-joined scopes, the generated state and the FHIR base
URL as aud; the launch parameter is always present — it holds the hint
when one was supplied and Python None (rendered "None" by urlencode)
otherwise. -/
theorem C6_amended_login_params (s : Settings) (req : Request) (sid : String)
    (nu : Option String) (cv : String) :
    ((SMARTLoginHandler.get s req sid nu cv).params.map Prod.fst
      = ["aud", "state", "launch", "redirect_uri", "client_id",
         "code_challenge", "code_challenge_method", "response_type",
         "scope"]) ∧
    List.lookup "response_type" (SMARTLoginHandler.get s req sid nu cv).params
      = some (PyVal.str "code") ∧
    List.lookup "client_id" (SMARTLoginHandler.get s req sid nu cv).params
      = some (PyVal.str s.client_id) ∧
    List.lookup "redirect_uri" (SMARTLoginHandler.get s req sid nu cv).params
      = some (PyVal.str (redirectUri s req)) ∧
    List.lookup "scope" (SMARTLoginHandler.get s req sid nu cv).params
      = some (PyVal.str (String.intercalate " " s.scopes)) ∧
    List.lookup "state" (SMARTLoginHandler.get s req sid nu cv).params
      = some (PyVal.str sid) ∧
    List.lookup "aud" (SMARTLoginHandler.get s req sid nu cv).params
      = some (PyVal.str s.smart_config.fhir_url) ∧
    List.lookup "code_challenge_method"
        (SMARTLoginHandler.get s req sid nu cv).params
      = some (PyVal.str "S256") ∧
    List.lookup "launch" (SMARTLoginHandler.get s req sid nu cv).params
      = some (match s.launch with
              | some l => PyVal.str l
              | none => PyVal.pyNone) :=
  ⟨rfl, rfl, rfl, rfl, rfl, rfl, rfl, rfl, rfl⟩

/-- Counterexample for C7: a missing code and a state mismatch — two
different client-caused FAILED variants — both produce the same HTTP
status 400, and an upstream token-endpoint failure produces 500 (the
re-raised HTTPClientError is not a Tornado HTTPError), which is neither
502 nor 504. -/
theorem C7_counterexample :
    outcomeStatus (SMARTCallbackHandler.get missingCodeQuery sampleCookies
        sampleSettings sampleRequest (Except.ok "tok")) = some 400 ∧
    outcomeStatus (SMARTCallbackHandler.get mismatchQuery sampleCookies
        sampleSettings sampleRequest (Except.ok "tok")) = some 400 ∧
    outcomeStatus (SMARTCallbackHandler.get okQuery sampleCookies
        sampleSettings sampleRequest (Except.error ())) = some 500 ∧
    (500 : Nat) ≠ 502 ∧ (500 : Nat) ≠ 504 := by decide

/-- C7 as amended: every client-caused validation failure is reported with
HTTP status 400 (the variants are distinguished only by their message),
while an upstream token-endpoint failure propagates as an uncaught
exception and is reported as 500, not as a 502/504-class status. -/
theorem C7_amended_statuses (q : Query) (c : Cookies) (s : Settings)
    (req : Request) (fr : Except Unit String) :
    (∀ e, callbackValidate q c = Except.error e →
      outcomeStatus (SMARTCallbackHandler.get q c s req fr) = some 400) ∧
    (∀ code v, callbackValidate q c = Except.ok code →
      c.code_verifier = some v → fr = Except.error () →
      outcomeStatus (SMARTCallbackHandler.get q c s req fr) = some 500) := by
  constructor
  · intro e he
    unfold SMARTCallbackHandler.get outcomeStatus
    rw [he]
    rfl
  · intro code v hok hcv hfr
    subst hfr
    unfold SMARTCallbackHandler.get outcomeStatus
    rw [hok, hcv]
    rfl

/-- Witness for the amended C7: both status rules applied at concrete
callbacks. -/
theorem C7_witness :
    (callbackValidate missingCodeQuery sampleCookies
        = Except.error ValidationError.missingCodeArg ∧
     outcomeStatus (SMARTCallbackHandler.get missingCodeQuery sampleCookies
        sampleSettings sampleRequest (Except.ok "tok")) = some 400) ∧
    (callbackValidate okQuery sampleCookies = Except.ok "authcode" ∧
     outcomeStatus (SMARTCallbackHandler.get okQuery sampleCookies
        sampleSettings sampleRequest (Except.error ())) = some 500) :=
  ⟨⟨by decide,
    (C7_amended_statuses missingCodeQuery sampleCookies sampleSettings
      sampleRequest (Except.ok "tok")).1 ValidationError.missingCodeArg
      (by decide)⟩,
   ⟨by decide,
    (C7_amended_statuses okQuery sampleCookies sampleSettings sampleRequest
      (Except.error ())).2 "authcode" "verifier1" (by decide) rfl rfl⟩⟩

/-- C8: a launch request whose iss parameter is a malformed (non-absolute)
URL fails with a 400-class error before any outbound network call
(discovery itself is modelled from the spec, auth.py being outside the
given sources). -/
theorem C8_malformed_iss (q : AuthQuery) (s : Settings) (req : Request)
    (fetched : Except Unit SMARTConfig) (iss : String)
    (hiss : (match q.iss with
             | some v => v
             | none => s.smart_default_issuer) = iss)
    (hne : iss ≠ "") (hmal : isAbsoluteUrl iss = false) :
    (SMARTAuthHandler.get q s req fetched).result = Except.error 400 ∧
    (SMARTAuthHandler.get q s req fetched).requests = [] := by
  unfold SMARTAuthHandler.get SMARTConfig.from_url
  rw [hiss, if_neg hne, hmal]
  exact ⟨rfl, rfl⟩

/-- Witness for C8 at the spec's own example iss value "not a url". -/
theorem C8_witness :
    (match (⟨some "not a url", none⟩ : AuthQuery).iss with
     | some v => v
     | none => sampleSettings.smart_default_issuer) = "not a url" ∧
    "not a url" ≠ "" ∧
    isAbsoluteUrl "not a url" = false ∧
    ((SMARTAuthHandler.get ⟨some "not a url", none⟩ sampleSettings
        sampleRequest (Except.ok sampleConfig)).result = Except.error 400 ∧
     (SMARTAuthHandler.get ⟨some "not a url", none⟩ sampleSettings
        sampleRequest (Except.ok sampleConfig)).requests = []) :=
  ⟨rfl, by decide, by decide,
   C8_malformed_iss ⟨some "not a url", none⟩ sampleSettings sampleRequest
     (Except.ok sampleConfig) "not a url" rfl (by decide) (by decide)⟩

/-- Counterexample for C9: on a successful callback the handler redirects
to the process-wide settings next_url ("/smart?iss=x"), not to the value
persisted in the signed next_url cookie ("/next"). -/
theorem C9_counterexample :
    sampleCookies.next_url = some "/next" ∧
    sampleSettings.next_url = "/smart?iss=x" ∧
    (SMARTCallbackHandler.get okQuery sampleCookies sampleSettings
        sampleRequest (Except.ok "tok")).result
      = Except.ok (Response.redirect 302 "/smart?iss=x") ∧
    "/smart?iss=x" ≠ "/next" := by decide

/-- C9 as amended: every callback that passes validation and token
exchange issues a 302 redirect to the process-wide settings next_url slot
(the value stored by the launch handler); the signed next_url cookie
written at login is never read by the callback handler. -/
theorem C9_amended_redirect_target (q : Query) (c : Cookies) (s : Settings)
    (req : Request) (tok code v : String)
    (hval : callbackValidate q c = Except.ok code)
    (hcv : c.code_verifier = some v) :
    (SMARTCallbackHandler.get q c s req (Except.ok tok)).result
      = Except.ok (Response.redirect 302 s.next_url) := by
  rw [get_success_characterization q c s req tok code v hval hcv]

/-- Witness for the amended C9 at a concrete successful callback. -/
theorem C9_witness :
    callbackValidate okQuery sampleCookies = Except.ok "authcode" ∧
    sampleCookies.code_verifier = some "verifier1" ∧
    (SMARTCallbackHandler.get okQuery sampleCookies sampleSettings
        sampleRequest (Except.ok "tok")).result
      = Except.ok (Response.redirect 302 sampleSettings.next_url) :=
  ⟨by decide, rfl,
   C9_amended_redirect_target okQuery sampleCookies sampleSettings
     sampleRequest "tok" "authcode" "verifier1" (by decide) rfl⟩

/-- C10: a failed callback — any validation failure or a token-endpoint
error — leaves the process-wide smart_token slot unchanged; the slot is
written only after a successful exchange. -/
theorem C10_token_slot_preserved_on_failure (q : Query) (c : Cookies)
    (s : Settings) (req : Request) (fr : Except Unit String)
    (h : ∃ e, (SMARTCallbackHandler.get q c s req fr).result
        = Except.error e) :
    (SMARTCallbackHandler.get q c s req fr).settings.smart_token
      = s.smart_token := by
  obtain ⟨e, he⟩ := h
  unfold SMARTCallbackHandler.get at he ⊢
  cases hv : callbackValidate q c with
  | error e2 => rfl
  | ok code =>
    rw [hv] at he
    cases hcv : c.code_verifier with
    | none => rfl
    | some v =>
      rw [hcv] at he
      cases fr with
      | error u => rfl
      | ok tok => simp at he

/-- Witness for C10 at a concrete failing callback (state mismatch). -/
theorem C10_witness :
    (∃ e, (SMARTCallbackHandler.get mismatchQuery sampleCookies
        sampleSettings sampleRequest (Except.ok "tok")).result
        = Except.error e) ∧
    (SMARTCallbackHandler.get mismatchQuery sampleCookies sampleSettings
        sampleRequest (Except.ok "tok")).settings.smart_token
      = sampleSettings.smart_token :=
  ⟨⟨CallbackError.validation ValidationError.stateMismatch, by decide⟩,
   C10_token_slot_preserved_on_failure mismatchQuery sampleCookies
     sampleSettings sampleRequest (Except.ok "tok")
     ⟨CallbackError.validation ValidationError.stateMismatch, by decide⟩⟩

end SmartFhir
